import Mathlib

/-!
Verification of the HTTP/3 connection layer (`neqo-http3/src/connection.rs`).

The connection module is embedded shallowly: the mutable `Http3Connection`
struct becomes a Lean structure passed and returned explicitly, and fallible
Rust methods returning `Res<T>` become functions returning a pair of the
updated state and an `Except Error T` (mirroring the fact that field
mutations performed before an early `return Err(..)` persist in Rust).
Collaborating crates that are not part of the source tree (the error
taxonomy of `lib.rs`, the frame codec of `hframe.rs`, the QPACK adapters
and the QUIC transport) are modelled from the specification, as marked on
each of their definitions.
-/

namespace NeqoHttp3

/-- Modelled from the spec: the `Role` enum of the external
`neqo_transport::connection` module (client or server, fixed at
construction). -/
inductive Role where
  | Client
  | Server
deriving DecidableEq, Repr

/-- Modelled from the spec: the external transport's connection state
(`neqo_transport::State`), reduced to the shape the HTTP/3 layer inspects:
it compares against `Connected` and pattern-matches `Closed(..)`. -/
inductive TransportState where
  | Idle
  | Connected
  | Closing
  | Closed
deriving DecidableEq, Repr

/-- Modelled from the spec: the error taxonomy of `lib.rs` (absent from the
source tree), section 4.10 of the specification. Each error carries a wire
code; the concrete numeric values are not given by the specification, so
the codes below are chosen distinct (positional), which is all the
development relies on. -/
inductive Error where
  | HttpNoError
  | WrongSettingsDirection
  | PushRefused
  | InternalError
  | PushAlreadyInCache
  | RequestCancelled
  | IncompleteRequest
  | ConnectError
  | ExcessiveLoad
  | VersionFallback
  | WrongStream
  | LimitExceeded
  | DuplicatePush
  | UnknownStreamType
  | WrongStreamCount
  | ClosedCriticalStream
  | WrongStreamDirection
  | EarlyResponse
  | MissingSettings
  | UnexpectedFrame
  | RequestRejected
  | MalformedFrame (frameType : Nat)
  | GeneralProtocolError
deriving DecidableEq, Repr

/-- Modelled from the spec: `Error::code()` of `lib.rs` (section 4.10:
each error carries a `u16` wire code). Values chosen distinct. -/
def Error.code : Error → Nat
  | .HttpNoError => 0
  | .WrongSettingsDirection => 1
  | .PushRefused => 2
  | .InternalError => 3
  | .PushAlreadyInCache => 4
  | .RequestCancelled => 5
  | .IncompleteRequest => 6
  | .ConnectError => 7
  | .ExcessiveLoad => 8
  | .VersionFallback => 9
  | .WrongStream => 10
  | .LimitExceeded => 11
  | .DuplicatePush => 12
  | .UnknownStreamType => 13
  | .WrongStreamCount => 14
  | .ClosedCriticalStream => 15
  | .WrongStreamDirection => 16
  | .EarlyResponse => 17
  | .MissingSettings => 18
  | .UnexpectedFrame => 19
  | .RequestRejected => 20
  | .MalformedFrame t => 256 + t
  | .GeneralProtocolError => 21

/-- Modelled from the spec: `Error::is_stream_error()` of `lib.rs`
(section 4.10: true iff the error may be isolated to one stream). Per
section 7 and the repository's own tests (the wrong-frame-on-request-stream
tests observe `STOP_SENDING` with the codes of `WrongStream` and
`UnexpectedFrame` while the connection stays `Connected`), these two are
the stream-scoped errors. -/
def Error.is_stream_error : Error → Bool
  | .WrongStream => true
  | .UnexpectedFrame => true
  | _ => false

/-- Modelled from the spec: the application-facing error type `Http3Error`
of `lib.rs`. The specification mentions `NetReset` (GOAWAY),
`ConnectionError` (`read_data` on a broken connection) and
`InvalidStreamId` (API calls on unknown streams). -/
inductive Http3Error where
  | NetReset
  | ConnectionError
  | InvalidStreamId
deriving DecidableEq, Repr

/-- Modelled from the spec: setting identifiers of `hframe.rs`
(section 3 and section 6: MaxHeaderListSize, NumPlaceholders, QPACK
MaxTableSize, QPACK BlockedStreams; unknown ids are ignored). -/
inductive HSettingType where
  | maxHeaderListSize
  | numPlaceholders
  | maxTableSize
  | blockedStreams
  | unknown (id : Nat)
deriving DecidableEq, Repr

/-- Modelled from the spec: the HTTP/3 frame type of `hframe.rs`
(section 4.2). Opaque payloads are byte lists. -/
inductive HFrame where
  | data (payload : List Nat)
  | headers (payload : List Nat)
  | priority (payload : List Nat)
  | cancelPush (pushId : Nat)
  | settings (settings : List (HSettingType × Nat))
  | pushPromise (pushId : Nat) (headerBlock : List Nat)
  | goaway (streamId : Nat)
  | maxPushId (pushId : Nat)
  | duplicatePush (pushId : Nat)
deriving DecidableEq, Repr

/-- Whether a frame is a SETTINGS frame. -/
def HFrame.isSettings : HFrame → Bool
  | .settings _ => true
  | _ => false

/-- Modelled from the spec: QUIC variable-length integer encoding used by
`neqo_common::Encoder::encode_varint` (absent from the source tree);
1/2/4/8-byte forms selected by the top two bits. -/
def encodeVarint (v : Nat) : List Nat :=
  if v < 64 then [v]
  else if v < 16384 then [64 + v / 256, v % 256]
  else if v < 1073741824 then
    [128 + v / 16777216, v / 65536 % 256, v / 256 % 256, v % 256]
  else
    [192 + v / 72057594037927936, v / 281474976710656 % 256,
     v / 1099511627776 % 256, v / 4294967296 % 256, v / 16777216 % 256,
     v / 65536 % 256, v / 256 % 256, v % 256]

/-- Modelled from the spec: wire ids of the settings (section 6):
MaxHeaderListSize=0x06, NumPlaceholders=0x09, MaxTableSize=0x01,
BlockedStreams=0x07. -/
def settingTypeId : HSettingType → Nat
  | .maxHeaderListSize => 6
  | .numPlaceholders => 9
  | .maxTableSize => 1
  | .blockedStreams => 7
  | .unknown id => id

/-- Modelled from the spec: the wire frame-type of each frame (section 6). -/
def HFrame.frameType : HFrame → Nat
  | .data _ => 0
  | .headers _ => 1
  | .priority _ => 2
  | .cancelPush _ => 3
  | .settings _ => 4
  | .pushPromise _ _ => 5
  | .goaway _ => 7
  | .maxPushId _ => 13
  | .duplicatePush _ => 14

/-- Modelled from the spec: per-type frame payload bytes (section 4.2). -/
def HFrame.payloadBytes : HFrame → List Nat
  | .data p => p
  | .headers p => p
  | .priority p => p
  | .cancelPush id => encodeVarint id
  | .settings s =>
      (s.map (fun p => encodeVarint (settingTypeId p.1) ++ encodeVarint p.2)).flatten
  | .pushPromise id block => encodeVarint id ++ block
  | .goaway id => encodeVarint id
  | .maxPushId id => encodeVarint id
  | .duplicatePush id => encodeVarint id

/-- Modelled from the spec: `HFrame::encode` of `hframe.rs` (section 4.2
wire grammar `type:varint length:varint payload`). -/
def HFrame.encode (f : HFrame) : List Nat :=
  encodeVarint f.frameType ++ encodeVarint f.payloadBytes.length ++ f.payloadBytes

/-- Modelled from the spec: the QUIC transport connection (section 6
contract), reduced to the observable behaviour the HTTP/3 layer depends
on: its role, its state, the stream ids it will hand out for successive
`stream_create` calls (an empty list models a transport refusing new
streams), and the record of `stream_stop_sending` and `close` calls the
HTTP/3 layer has issued against it. -/
structure TransportConn where
  role : Role
  state : TransportState
  nextStreamIds : List Nat
  stopSendingCalls : List (Nat × Nat)
  closeCalls : List Nat
deriving DecidableEq, Repr

/-- Modelled from the spec: `stream_create` hands out the next stream id
or refuses (section 6: `stream_create(BiDi|UniDi) → stream_id | Error`);
refusal surfaces as an error (represented by `InternalError`). -/
def TransportConn.stream_create (t : TransportConn) : Except Error (Nat × TransportConn) :=
  match t.nextStreamIds with
  | [] => .error .InternalError
  | id :: rest => .ok (id, { t with nextStreamIds := rest })

/-- Modelled from the spec: `stream_stop_sending(id, app_code)` (section 6);
the call is recorded. -/
def TransportConn.stream_stop_sending (t : TransportConn) (id code : Nat) : TransportConn :=
  { t with stopSendingCalls := t.stopSendingCalls ++ [(id, code)] }

/-- Modelled from the spec: `close(flags, code, msg)` (section 6); the call
is recorded. -/
def TransportConn.close (t : TransportConn) (code : Nat) : TransportConn :=
  { t with closeCalls := t.closeCalls ++ [code] }

/-- The HTTP/3 connection state machine (`Http3State` in the source). -/
inductive Http3State where
  | Initializing
  | Connected
  | GoingAway
  | Closing (error : Nat)
  | Closed (error : Nat)
deriving DecidableEq, Repr

/-- The application-facing protocol event (`Http3Event` in the source);
the variant order matches the source declaration order, which fixes the
derived `Ord` used by the `BTreeSet` event queue. -/
inductive Http3Event where
  | headerReady (stream_id : Nat)
  | dataReadable (stream_id : Nat)
  | requestClosed (stream_id : Nat) (error : Http3Error)
  | newPushStream (stream_id : Nat)
  | connectionClosed (error_code : Nat)
deriving DecidableEq, Repr

/-- Rank of an `Http3Error` in its (derived) ordering. -/
def herank : Http3Error → Nat
  | .NetReset => 0
  | .ConnectionError => 1
  | .InvalidStreamId => 2

/-- The derived lexicographic sort key of an event: variant index first,
then the fields in declaration order. -/
def evKey : Http3Event → Nat × Nat × Nat
  | .headerReady sid => (0, sid, 0)
  | .dataReadable sid => (1, sid, 0)
  | .requestClosed sid err => (2, sid, herank err)
  | .newPushStream sid => (3, sid, 0)
  | .connectionClosed code => (4, code, 0)

/-- Strict lexicographic order on `Nat` triples. -/
def tripLt (a b : Nat × Nat × Nat) : Prop :=
  a.1 < b.1 ∨ (a.1 = b.1 ∧ (a.2.1 < b.2.1 ∨ (a.2.1 = b.2.1 ∧ a.2.2 < b.2.2)))

instance (a b : Nat × Nat × Nat) : Decidable (tripLt a b) := by
  unfold tripLt; infer_instance

/-- The strict order on events derived in the source
(`#[derive(PartialOrd, Ord)]` on `Http3Event`), governing `BTreeSet`
iteration. -/
def evLt (a b : Http3Event) : Prop := tripLt (evKey a) (evKey b)

instance (a b : Http3Event) : Decidable (evLt a b) := by
  unfold evLt; infer_instance

/-- Ordered-set insertion into a strictly sorted list: the model of
`BTreeSet::insert` (an element with an equal key is already present and
the set is unchanged). -/
def insertEvent (es : List Http3Event) (x : Http3Event) : List Http3Event :=
  match es with
  | [] => [x]
  | h :: t =>
    if evLt x h then x :: h :: t
    else if evLt h x then h :: insertEvent t x
    else h :: t

/-- The event queue (`Http3Events` in the source): a `BTreeSet` of events
modelled as a strictly `evLt`-sorted list. -/
structure Http3Events where
  events : List Http3Event
deriving DecidableEq, Repr

/-- `Http3Events::header_ready`. -/
def Http3Events.header_ready (s : Http3Events) (stream_id : Nat) : Http3Events :=
  { events := insertEvent s.events (.headerReady stream_id) }

/-- `Http3Events::data_readable`. -/
def Http3Events.data_readable (s : Http3Events) (stream_id : Nat) : Http3Events :=
  { events := insertEvent s.events (.dataReadable stream_id) }

/-- `Http3Events::request_closed`. -/
def Http3Events.request_closed (s : Http3Events) (stream_id : Nat) (error : Http3Error) :
    Http3Events :=
  { events := insertEvent s.events (.requestClosed stream_id error) }

/-- `Http3Events::new_push_stream`. -/
def Http3Events.new_push_stream (s : Http3Events) (stream_id : Nat) : Http3Events :=
  { events := insertEvent s.events (.newPushStream stream_id) }

/-- `Http3Events::connection_closed`: clears the set, then inserts the
`ConnectionClosed` event. -/
def Http3Events.connection_closed (_s : Http3Events) (error_code : Nat) : Http3Events :=
  { events := insertEvent [] (.connectionClosed error_code) }

/-- `Http3Events::events` (the name `events` is taken by the field in
Lean): `mem::replace(&mut self.events, BTreeSet::new())` — returns the
pending events and leaves the queue empty. -/
def Http3Events.drainEvents (s : Http3Events) : List Http3Event × Http3Events :=
  (s.events, { events := [] })

/-- Modelled from the spec: the QPACK encoder adapter (section 4.6): owns
one outbound unidirectional stream and at most one inbound one, plus the
table limits relayed from the peer's SETTINGS. Internals are external. -/
structure QPackEncoder where
  sendStream : Option Nat
  recvStream : Option Nat
  maxCapacity : Nat
  maxBlocked : Nat
deriving DecidableEq, Repr

/-- Modelled from the spec: `QPackEncoder::new`. -/
def QPackEncoder.new (_isEncoder : Bool) : QPackEncoder :=
  { sendStream := none, recvStream := none, maxCapacity := 0, maxBlocked := 0 }

/-- Modelled from the spec: `set_max_capacity` (section 4.6). -/
def QPackEncoder.set_max_capacity (q : QPackEncoder) (v : Nat) : QPackEncoder :=
  { q with maxCapacity := v }

/-- Modelled from the spec: `set_max_blocked_streams` (section 4.6). -/
def QPackEncoder.set_max_blocked_streams (q : QPackEncoder) (v : Nat) : QPackEncoder :=
  { q with maxBlocked := v }

/-- Modelled from the spec: `has_recv_stream`. -/
def QPackEncoder.has_recv_stream (q : QPackEncoder) : Bool := q.recvStream.isSome

/-- Modelled from the spec: `add_recv_stream`. -/
def QPackEncoder.add_recv_stream (q : QPackEncoder) (id : Nat) : QPackEncoder :=
  { q with recvStream := some id }

/-- Modelled from the spec: `add_send_stream`. -/
def QPackEncoder.add_send_stream (q : QPackEncoder) (id : Nat) : QPackEncoder :=
  { q with sendStream := some id }

/-- Modelled from the spec: the QPACK decoder adapter (section 4.6),
constructed with the local table limits that are advertised in the local
SETTINGS frame. -/
structure QPackDecoder where
  sendStream : Option Nat
  recvStream : Option Nat
  maxTableSize : Nat
  blockedStreams : Nat
deriving DecidableEq, Repr

/-- Modelled from the spec: `QPackDecoder::new(max_table_size, max_blocked_streams)`. -/
def QPackDecoder.new (max_table_size : Nat) (max_blocked_streams : Nat) : QPackDecoder :=
  { sendStream := none, recvStream := none, maxTableSize := max_table_size,
    blockedStreams := max_blocked_streams }

/-- Modelled from the spec: `get_max_table_size`. -/
def QPackDecoder.get_max_table_size (q : QPackDecoder) : Nat := q.maxTableSize

/-- Modelled from the spec: `get_blocked_streams`. -/
def QPackDecoder.get_blocked_streams (q : QPackDecoder) : Nat := q.blockedStreams

/-- Modelled from the spec: `has_recv_stream`. -/
def QPackDecoder.has_recv_stream (q : QPackDecoder) : Bool := q.recvStream.isSome

/-- Modelled from the spec: `add_recv_stream`. -/
def QPackDecoder.add_recv_stream (q : QPackDecoder) (id : Nat) : QPackDecoder :=
  { q with recvStream := some id }

/-- Modelled from the spec: `add_send_stream`. -/
def QPackDecoder.add_send_stream (q : QPackDecoder) (id : Nat) : QPackDecoder :=
  { q with sendStream := some id }

/-- The local control stream (`ControlStreamLocal`): the outbound
unidirectional stream id once created and the byte buffer of frames not
yet accepted by the transport. -/
structure ControlStreamLocal where
  stream_id : Option Nat
  buf : List Nat
deriving DecidableEq, Repr

/-- `ControlStreamLocal::send_frame`: encode the frame and append it to
the buffer. -/
def ControlStreamLocal.send_frame (s : ControlStreamLocal) (f : HFrame) : ControlStreamLocal :=
  { s with buf := s.buf ++ f.encode }

/-- The remote control stream (`ControlStreamRemote`). Its `HFrameReader`
lives in the absent `hframe.rs`; it is modelled by its observable surface:
`frame_reader` holds `some f` exactly when `frame_reader.done()` is true
and `get_frame()` would yield `f`. -/
structure ControlStreamRemote where
  stream_id : Option Nat
  frame_reader : Option HFrame
  fin : Bool
deriving DecidableEq, Repr

/-- `ControlStreamRemote::new`. -/
def ControlStreamRemote.new : ControlStreamRemote :=
  { stream_id := none, frame_reader := none, fin := false }

/-- `ControlStreamRemote::add_remote_stream`: binds the remote control
stream id; a second control stream is `WrongStreamCount`. -/
def ControlStreamRemote.add_remote_stream (s : ControlStreamRemote) (stream_id : Nat) :
    ControlStreamRemote × Except Error Unit :=
  if s.stream_id.isSome then (s, .error .WrongStreamCount)
  else ({ s with stream_id := some stream_id }, .ok ())

/-- Sorted-set insertion on `Nat`, the model of `BTreeSet<u64>::insert`
used for the readiness sets. -/
def insertNat (l : List Nat) (n : Nat) : List Nat :=
  match l with
  | [] => [n]
  | h :: t =>
    if n < h then n :: h :: t
    else if h < n then h :: insertNat t n
    else h :: t

/-- Removal from a key set, the model of `HashMap::remove` on the
request-stream maps (whose values live in the absent request-stream
modules; the maps are modelled by their key sets). -/
def removeNat (l : List Nat) (n : Nat) : List Nat :=
  l.filter (fun x => x != n)

/-- `const MAX_HEADER_LIST_SIZE_DEFAULT: u64 = u64::max_value()`. -/
def MAX_HEADER_LIST_SIZE_DEFAULT : Nat := 2 ^ 64 - 1

/-- `const NUM_PLACEHOLDERS_DEFAULT: u64 = 0`. -/
def NUM_PLACEHOLDERS_DEFAULT : Nat := 0

/-- `const HTTP3_UNI_STREAM_TYPE_CONTROL: u64 = 0x0`. -/
def HTTP3_UNI_STREAM_TYPE_CONTROL : Nat := 0

/-- `const HTTP3_UNI_STREAM_TYPE_PUSH: u64 = 0x1`. -/
def HTTP3_UNI_STREAM_TYPE_PUSH : Nat := 1

/-- Modelled from the spec: `QPACK_UNI_STREAM_TYPE_ENCODER = 0x02`
(section 6; the constant lives in the external `neqo_qpack` crate). -/
def QPACK_UNI_STREAM_TYPE_ENCODER : Nat := 2

/-- Modelled from the spec: `QPACK_UNI_STREAM_TYPE_DECODER = 0x03`
(section 6). -/
def QPACK_UNI_STREAM_TYPE_DECODER : Nat := 3

/-- The HTTP/3 connection (`Http3Connection`): the fields of the source
struct. The request-stream maps are modelled by their key sets (the
per-stream values live in the absent request-stream modules), `new_streams`
by its key set, the shared `Rc<RefCell<Http3Events>>` by a plain field,
and the server handler callback by its presence. -/
structure Http3Connection where
  state : Http3State
  conn : TransportConn
  max_header_list_size : Nat
  num_placeholders : Nat
  control_stream_local : ControlStreamLocal
  control_stream_remote : ControlStreamRemote
  new_streams : List Nat
  qpack_encoder : QPackEncoder
  qpack_decoder : QPackDecoder
  settings_received : Bool
  streams_are_readable : List Nat
  streams_have_data_to_send : List Nat
  events : Http3Events
  request_streams_client : List Nat
  request_streams_server : List Nat
  handler : Bool
deriving DecidableEq, Repr

/-- `Http3Connection::new`: panics (`none`) when `max_table_size`
exceeds `(1 << 30) - 1`, otherwise builds the initial state. -/
def Http3Connection.new (c : TransportConn) (max_table_size : Nat)
    (max_blocked_streams : Nat) (handler : Bool) : Option Http3Connection :=
  if max_table_size > (1 <<< 30) - 1 then none
  else some
    { state := .Initializing
      conn := c
      max_header_list_size := MAX_HEADER_LIST_SIZE_DEFAULT
      num_placeholders := NUM_PLACEHOLDERS_DEFAULT
      control_stream_local := { stream_id := none, buf := [] }
      control_stream_remote := ControlStreamRemote.new
      new_streams := []
      qpack_encoder := QPackEncoder.new true
      qpack_decoder := QPackDecoder.new max_table_size max_blocked_streams
      settings_received := false
      streams_are_readable := []
      streams_have_data_to_send := []
      events := { events := [] }
      request_streams_client := []
      request_streams_server := []
      handler := handler }

/-- `Http3Connection::close`: enter `Closing`, clear both request-stream
maps and close the transport (the `qwarn` on active streams with a zero
code is log-only). -/
def Http3Connection.close (c : Http3Connection) (error : Nat) : Http3Connection :=
  { c with
      state := .Closing error
      request_streams_client := []
      request_streams_server := []
      conn := c.conn.close error }

/-- `Http3Connection::check_result`: an `Err` closes the connection with
the error's wire code and reports `true`. -/
def Http3Connection.check_result (c : Http3Connection) (res : Except Error Unit) :
    Http3Connection × Bool :=
  match res with
  | .error e => (c.close e.code, true)
  | .ok _ => (c, false)

/-- `Http3Connection::create_control_stream`: create the outbound
unidirectional stream and queue the control-stream-type varint `0x00`. -/
def Http3Connection.create_control_stream (c : Http3Connection) :
    Http3Connection × Except Error Unit :=
  match c.conn.stream_create with
  | .error e => (c, .error e)
  | .ok (id, t) =>
    ({ c with
        conn := t
        control_stream_local :=
          { stream_id := some id, buf := c.control_stream_local.buf ++ encodeVarint 0 } },
     .ok ())

/-- `Http3Connection::create_settings`: queue the local SETTINGS frame
carrying the QPACK decoder's table size and blocked-streams limits. -/
def Http3Connection.create_settings (c : Http3Connection) : Http3Connection :=
  { c with
      control_stream_local :=
        c.control_stream_local.send_frame
          (.settings
            [(.maxTableSize, c.qpack_decoder.get_max_table_size),
             (.blockedStreams, c.qpack_decoder.get_blocked_streams)]) }

/-- `Http3Connection::create_qpack_streams`: create the two outbound
unidirectional QPACK streams. -/
def Http3Connection.create_qpack_streams (c : Http3Connection) :
    Http3Connection × Except Error Unit :=
  match c.conn.stream_create with
  | .error e => (c, .error e)
  | .ok (id1, t1) =>
    let c1 := { c with conn := t1, qpack_encoder := c.qpack_encoder.add_send_stream id1 }
    match c1.conn.stream_create with
    | .error e => (c1, .error e)
    | .ok (id2, t2) =>
      ({ c1 with conn := t2, qpack_decoder := c1.qpack_decoder.add_send_stream id2 }, .ok ())

/-- `Http3Connection::initialize_http3_connection` (the source name
contains a token the verification toolchain reserves): control stream,
then SETTINGS, then QPACK streams. -/
def Http3Connection.init_http3_connection (c : Http3Connection) :
    Http3Connection × Except Error Unit :=
  match c.create_control_stream with
  | (c1, .error e) => (c1, .error e)
  | (c1, .ok _) =>
    let c2 := c1.create_settings
    c2.create_qpack_streams

/-- `Http3Connection::check_state_change`: `Initializing` becomes
`Connected` (running initialization, any error closing the connection)
once the transport connects; `Closing(err)` becomes `Closed(err)` once
the transport reports closed. -/
def Http3Connection.check_state_change (c : Http3Connection) : Http3Connection :=
  match c.state with
  | .Initializing =>
    if c.conn.state = .Connected then
      let c1 := { c with state := .Connected }
      let (c2, r) := c1.init_http3_connection
      (c2.check_result r).1
    else c
  | .Closing err =>
    match c.conn.state with
    | .Closed => { c with state := .Closed err }
    | _ => c
  | _ => c

/-- `Http3Connection::fetch`: create a bidirectional stream, register a
client request stream under its id (the `RequestStreamClient` value lives
in the absent module; the map is modelled by its key set) and mark it as
having data to send. The string arguments only feed the external request
stream. Note the source performs no connection-state check. -/
def Http3Connection.fetch (c : Http3Connection) (_method _scheme _host _path : String)
    (_headers : List (String × String)) : Http3Connection × Except Error Nat :=
  match c.conn.stream_create with
  | .error e => (c, .error e)
  | .ok (id, t) =>
    ({ c with
        conn := t
        request_streams_client := insertNat c.request_streams_client id
        streams_have_data_to_send := insertNat c.streams_have_data_to_send id },
     .ok id)

/-- `Http3Connection::decode_new_stream`: dispatch a new inbound
unidirectional stream on its leading type varint. -/
def Http3Connection.decode_new_stream (c : Http3Connection) (stream_type stream_id : Nat) :
    Http3Connection × Except Error Unit :=
  if stream_type = HTTP3_UNI_STREAM_TYPE_CONTROL then
    let (s, r) := c.control_stream_remote.add_remote_stream stream_id
    ({ c with control_stream_remote := s }, r)
  else if stream_type = HTTP3_UNI_STREAM_TYPE_PUSH then
    if c.conn.role = .Server then
      ({ c with conn := c.conn.stream_stop_sending stream_id Error.WrongStreamDirection.code },
       .ok ())
    else
      ({ c with conn := c.conn.stream_stop_sending stream_id Error.PushRefused.code }, .ok ())
  else if stream_type = QPACK_UNI_STREAM_TYPE_ENCODER then
    if c.qpack_decoder.has_recv_stream then (c, .error .WrongStreamCount)
    else
      ({ c with
          qpack_decoder := c.qpack_decoder.add_recv_stream stream_id
          streams_are_readable := insertNat c.streams_are_readable stream_id }, .ok ())
  else if stream_type = QPACK_UNI_STREAM_TYPE_DECODER then
    if c.qpack_encoder.has_recv_stream then (c, .error .WrongStreamCount)
    else
      ({ c with
          qpack_encoder := c.qpack_encoder.add_recv_stream stream_id
          streams_are_readable := insertNat c.streams_are_readable stream_id }, .ok ())
  else
    ({ c with conn := c.conn.stream_stop_sending stream_id Error.UnknownStreamType.code },
     .ok ())

/-- `Http3Connection::handle_settings`: store MaxHeaderListSize; store
NumPlaceholders on a client, reject it on a server with
`WrongStreamDirection`; relay MaxTableSize and BlockedStreams to the QPACK
encoder (whose setters, per the section 4.6 contract, do not fail);
ignore unknown settings. -/
def Http3Connection.handle_settings (c : Http3Connection)
    (s : List (HSettingType × Nat)) : Http3Connection × Except Error Unit :=
  match s with
  | [] => (c, .ok ())
  | (t, v) :: rest =>
    match t with
    | .maxHeaderListSize => handle_settings { c with max_header_list_size := v } rest
    | .numPlaceholders =>
      if c.conn.role = .Server then (c, .error .WrongStreamDirection)
      else handle_settings { c with num_placeholders := v } rest
    | .maxTableSize =>
      handle_settings { c with qpack_encoder := c.qpack_encoder.set_max_capacity v } rest
    | .blockedStreams =>
      handle_settings { c with qpack_encoder := c.qpack_encoder.set_max_blocked_streams v } rest
    | .unknown _ => handle_settings c rest

/-- The event filter applied by `handle_goaway`: `HeaderReady`,
`DataReadable` and `NewPushStream` survive only below the cutoff;
`RequestClosed` and `ConnectionClosed` are preserved. -/
def keepOnGoaway (cutoff : Nat) : Http3Event → Bool
  | .headerReady sid => decide (sid < cutoff)
  | .dataReadable sid => decide (sid < cutoff)
  | .newPushStream sid => decide (sid < cutoff)
  | .requestClosed _ _ => true
  | .connectionClosed _ => true

/-- `Http3Connection::handle_goaway`: on a server, `UnexpectedFrame`; on a
client, emit `RequestClosed(NetReset)` for every request stream at or
above the cutoff, drop those streams, filter the pending events, and move
`Connected` to `GoingAway`. -/
def Http3Connection.handle_goaway (c : Http3Connection) (goaway_stream_id : Nat) :
    Http3Connection × Except Error Unit :=
  if c.conn.role = .Server then (c, .error .UnexpectedFrame)
  else
    let hit := c.request_streams_client.filter (fun id => decide (goaway_stream_id ≤ id))
    let ev1 := hit.foldl
      (fun es id => insertEvent es (.requestClosed id .NetReset)) c.events.events
    let reqs := c.request_streams_client.filter (fun id => decide (id < goaway_stream_id))
    let ev2 := ev1.filter (keepOnGoaway goaway_stream_id)
    let st := if c.state = .Connected then Http3State.GoingAway else c.state
    ({ c with
        request_streams_client := reqs
        events := { events := ev2 }
        state := st }, .ok ())

/-- `Http3Connection::handle_max_push_id`: `UnexpectedFrame` on a client;
a TODO (no-op) on a server. -/
def Http3Connection.handle_max_push_id (c : Http3Connection) (_id : Nat) :
    Http3Connection × Except Error Unit :=
  if c.conn.role = .Client then (c, .error .UnexpectedFrame) else (c, .ok ())

/-- `Http3Connection::handle_control_frame`: FIN on the remote control
stream is `ClosedCriticalStream`; otherwise, when a complete frame is
available, take it (modelling `get_frame`), enforce the SETTINGS gate
(a second SETTINGS is `UnexpectedFrame`, a non-SETTINGS frame before the
first SETTINGS is `MissingSettings`) and dispatch. -/
def Http3Connection.handle_control_frame (c : Http3Connection) :
    Http3Connection × Except Error Unit :=
  if c.control_stream_remote.fin then (c, .error .ClosedCriticalStream)
  else
    match c.control_stream_remote.frame_reader with
    | none => (c, .ok ())
    | some f =>
      let c0 :=
        { c with control_stream_remote := { c.control_stream_remote with frame_reader := none } }
      let gate : Except Error Http3Connection :=
        match f with
        | .settings _ =>
          if c0.settings_received then .error .UnexpectedFrame
          else .ok { c0 with settings_received := true }
        | _ => if c0.settings_received then .ok c0 else .error .MissingSettings
      match gate with
      | .error e => (c0, .error e)
      | .ok c1 =>
        match f with
        | .settings s => c1.handle_settings s
        | .priority _ => (c1, .ok ())
        | .cancelPush _ => (c1, .ok ())
        | .goaway sid => c1.handle_goaway sid
        | .maxPushId pid => c1.handle_max_push_id pid
        | _ => (c1, .error .WrongStream)

/-- Delivery of one complete frame on the remote control stream: the frame
reader completes with the frame and `handle_control_frame` runs (the
`handle_stream_readable` loop calls `handle_control_frame` whenever
`frame_reader.done()`). -/
def stepFrame (c : Http3Connection) (f : HFrame) : Http3Connection × Except Error Unit :=
  Http3Connection.handle_control_frame
    { c with control_stream_remote := { c.control_stream_remote with frame_reader := some f } }

/-- Delivery of a sequence of complete frames on the remote control
stream; an error stops processing (the connection closes). -/
def runFrames (c : Http3Connection) : List HFrame → Http3Connection × Except Error Unit
  | [] => (c, .ok ())
  | f :: rest =>
    match stepFrame c f with
    | (c1, .ok _) => runFrames c1 rest
    | (c1, .error e) => (c1, .error e)

/-- `Http3Connection::get_headers`: `InvalidStreamId` on an unknown
stream; on a known stream, hand back the headers held by the external
`RequestStreamClient` (passed as a parameter). -/
def Http3Connection.get_headers (c : Http3Connection) (stream_id : Nat)
    (held : Option (List (String × String))) :
    Except Http3Error (Option (List (String × String))) :=
  if stream_id ∈ c.request_streams_client then .ok held
  else .error .InvalidStreamId

/-- `Http3Connection::read_data`: `InvalidStreamId` on an unknown stream;
on a known stream the external `RequestStreamClient::read_data` result is
the parameter `inner`: on `(amount, fin)`, a finished stream is removed
and a stream with more buffered data (`amount > 0 && !fin`) is re-marked
readable; an inner error closes the connection and surfaces
`ConnectionError`. -/
def Http3Connection.read_data (c : Http3Connection) (stream_id : Nat)
    (inner : Except Error (Nat × Bool)) :
    Http3Connection × Except Http3Error (Nat × Bool) :=
  if stream_id ∈ c.request_streams_client then
    match inner with
    | .ok (amount, fin) =>
      let c1 :=
        if fin then
          { c with request_streams_client := removeNat c.request_streams_client stream_id }
        else c
      let c2 :=
        if amount > 0 && !fin then
          { c1 with streams_are_readable := insertNat c1.streams_are_readable stream_id }
        else c1
      (c2, .ok (amount, fin))
    | .error e => (c.close e.code, .error .ConnectionError)
  else (c, .error .InvalidStreamId)

/-- `Http3Connection::events` (the name `events` is taken by the field in
Lean): drain the event queue into a list. -/
def Http3Connection.connEvents (c : Http3Connection) : List Http3Event × Http3Connection :=
  let (out, s) := c.events.drainEvents
  (out, { c with events := s })

/-- The state effect of the tail of `read_stream_server` after `receive`:
when the request is fully read, the handler builds the response (an
external effect on the request stream); a stream with response data to
send is queued, otherwise the source removes the stream from the CLIENT
map (`request_streams_client.remove`, as written). -/
def afterServerReceive (c : Http3Connection) (stream_id : Nat)
    (done_reading : Bool) (has_data : Bool) : Http3Connection :=
  if done_reading then
    if has_data then
      { c with streams_have_data_to_send := insertNat c.streams_have_data_to_send stream_id }
    else
      { c with request_streams_client := removeNat c.request_streams_client stream_id }
  else c

/-- `Http3Connection::read_stream_server`: on a non-server role report
no match; on a known server request stream run the external
`receive`/`unblock` (its result is the parameter `recv_res`): a
stream-scoped error removes the stream from the CLIENT map (as the source
is written) and issues STOP_SENDING with the error's code, any other
error propagates; then the done-reading tail runs (`done_reading` and
`has_data` are the external request stream's answers). -/
def Http3Connection.read_stream_server (c : Http3Connection) (stream_id : Nat)
    (_unblocked : Bool) (recv_res : Except Error Unit)
    (done_reading : Bool) (has_data : Bool) : Http3Connection × Except Error Bool :=
  if c.conn.role ≠ .Server then (c, .ok false)
  else if stream_id ∈ c.request_streams_server then
    match recv_res with
    | .error e =>
      if e.is_stream_error then
        let c1 :=
          { c with
              request_streams_client := removeNat c.request_streams_client stream_id
              conn := c.conn.stream_stop_sending stream_id e.code }
        (afterServerReceive c1 stream_id done_reading has_data, .ok true)
      else (c, .error e)
    | .ok _ => (afterServerReceive c stream_id done_reading has_data, .ok true)
  else (c, .ok false)

/-- Dispatch of one event insertion to the corresponding `Http3Events`
method (the source's request streams and connection call these methods to
enqueue events). -/
def insertOne (s : Http3Events) (e : Http3Event) : Http3Events :=
  match e with
  | .headerReady sid => s.header_ready sid
  | .dataReadable sid => s.data_readable sid
  | .requestClosed sid err => s.request_closed sid err
  | .newPushStream sid => s.new_push_stream sid
  | .connectionClosed code => s.connection_closed code

/-- A whole sequence of event insertions into an initially empty queue. -/
def insertAll (l : List Http3Event) : Http3Events :=
  l.foldl insertOne { events := [] }

/-- A concrete transport connection for witnesses. -/
def mkTrans (r : Role) (ts : TransportState) (next : List Nat) : TransportConn :=
  { role := r, state := ts, nextStreamIds := next, stopSendingCalls := [], closeCalls := [] }

/-- A concrete HTTP/3 connection for witnesses. -/
def mkConn (r : Role) (st : Http3State) (ts : TransportState) (next : List Nat) :
    Http3Connection :=
  { state := st
    conn := mkTrans r ts next
    max_header_list_size := MAX_HEADER_LIST_SIZE_DEFAULT
    num_placeholders := 0
    control_stream_local := { stream_id := none, buf := [] }
    control_stream_remote := ControlStreamRemote.new
    new_streams := []
    qpack_encoder := QPackEncoder.new true
    qpack_decoder := QPackDecoder.new 100 100
    settings_received := false
    streams_are_readable := []
    streams_have_data_to_send := []
    events := { events := [] }
    request_streams_client := []
    request_streams_server := []
    handler := false }

/-- A freshly connected client whose peer has not yet sent SETTINGS. -/
def cFresh : Http3Connection := mkConn .Client .Connected .Connected []

/-- A connection whose remote control stream has seen FIN. -/
def cFin : Http3Connection :=
  { mkConn .Client .Connected .Connected [] with
      control_stream_remote := { stream_id := some 3, frame_reader := none, fin := true } }

/-- A connection in `Closing(ClosedCriticalStream)` whose transport has
reported closed. -/
def cClosingDone : Http3Connection :=
  mkConn .Client (.Closing Error.ClosedCriticalStream.code) .Closed []

/-- A client with three active requests and one pending event, about to
receive GOAWAY. -/
def cGo : Http3Connection :=
  { mkConn .Client .Connected .Connected [] with
      request_streams_client := [0, 4, 8]
      events := { events := [.headerReady 8] } }

/-- A client in the `GoingAway` state whose transport will still hand out
a bidirectional stream. -/
def cGoingAway : Http3Connection := mkConn .Client .GoingAway .Connected [0]

/-- A server with one active server request stream. -/
def cServerBug : Http3Connection :=
  { mkConn .Server .Connected .Connected [] with request_streams_server := [0] }

/-- A connection whose remote control stream and both inbound QPACK
streams are already bound. -/
def cDup : Http3Connection :=
  { mkConn .Client .Connected .Connected [] with
      control_stream_remote := { stream_id := some 3, frame_reader := none, fin := false }
      qpack_decoder :=
        { sendStream := none, recvStream := some 6, maxTableSize := 100, blockedStreams := 100 }
      qpack_encoder :=
        { sendStream := none, recvStream := some 10, maxCapacity := 0, maxBlocked := 0 } }

/-- A client with one active request stream under id 0. -/
def cReq : Http3Connection :=
  { mkConn .Client .Connected .Connected [] with request_streams_client := [0] }

/-! ## Helper lemmas -/

theorem mem_insertNat_self (l : List Nat) (n : Nat) : n ∈ insertNat l n := by
  induction l with
  | nil => simp [insertNat]
  | cons h t ih =>
    by_cases h1 : n < h
    · simp [insertNat, h1]
    · by_cases h2 : h < n
      · simp only [insertNat, if_neg h1, if_pos h2, List.mem_cons]
        exact Or.inr ih
      · have h3 : n = h := by omega
        simp [insertNat, h1, h2, h3]

theorem not_mem_removeNat (l : List Nat) (n : Nat) : n ∉ removeNat l n := by
  simp [removeNat, List.mem_filter]

theorem tripLt_irrefl (a : Nat × Nat × Nat) : ¬ tripLt a a := by
  simp [tripLt]

theorem tripLt_trans {a b c : Nat × Nat × Nat} (h1 : tripLt a b) (h2 : tripLt b c) :
    tripLt a c := by
  obtain ⟨a1, a2, a3⟩ := a
  obtain ⟨b1, b2, b3⟩ := b
  obtain ⟨c1, c2, c3⟩ := c
  simp only [tripLt] at h1 h2 ⊢
  omega

theorem tripLt_antisymm_eq {a b : Nat × Nat × Nat} (h1 : ¬ tripLt a b) (h2 : ¬ tripLt b a) :
    a = b := by
  obtain ⟨a1, a2, a3⟩ := a
  obtain ⟨b1, b2, b3⟩ := b
  simp only [tripLt] at h1 h2
  have e1 : a1 = b1 := by omega
  have e2 : a2 = b2 := by omega
  have e3 : a3 = b3 := by omega
  simp [e1, e2, e3]

theorem herank_inj {x y : Http3Error} (h : herank x = herank y) : x = y := by
  cases x <;> cases y <;> simp_all [herank]

theorem evKey_inj {a b : Http3Event} (h : evKey a = evKey b) : a = b := by
  cases a <;> cases b <;> simp_all [evKey]
  exact herank_inj h.2

theorem evLt_ne {a b : Http3Event} (h : evLt a b) : a ≠ b := by
  intro he
  exact tripLt_irrefl (evKey b) (he ▸ h)

theorem mem_insertEvent {a x : Http3Event} {es : List Http3Event} :
    a ∈ insertEvent es x ↔ a = x ∨ a ∈ es := by
  induction es with
  | nil => simp [insertEvent]
  | cons h t ih =>
    by_cases h1 : evLt x h
    · simp only [insertEvent, if_pos h1, List.mem_cons]
    · by_cases h2 : evLt h x
      · simp only [insertEvent, if_neg h1, if_pos h2, List.mem_cons, ih]
        tauto
      · have hx : x = h := evKey_inj (tripLt_antisymm_eq h1 h2)
        subst hx
        simp only [insertEvent, if_neg h1, List.mem_cons]
        tauto

theorem pairwise_insertEvent {es : List Http3Event} {x : Http3Event}
    (hs : es.Pairwise evLt) : (insertEvent es x).Pairwise evLt := by
  induction es with
  | nil => simp [insertEvent]
  | cons h t ih =>
    obtain ⟨hh, ht⟩ := List.pairwise_cons.mp hs
    by_cases h1 : evLt x h
    · simp only [insertEvent, if_pos h1]
      refine List.Pairwise.cons ?_ hs
      intro b hb
      rcases List.mem_cons.mp hb with rfl | hb
      · exact h1
      · exact tripLt_trans h1 (hh b hb)
    · by_cases h2 : evLt h x
      · simp only [insertEvent, if_neg h1, if_pos h2]
        refine List.Pairwise.cons ?_ (ih ht)
        intro b hb
        rcases mem_insertEvent.mp hb with rfl | hb
        · exact h2
        · exact hh b hb
      · simp only [insertEvent, if_neg h1, if_neg h2]
        exact hs

theorem mem_foldl_insertEvent {β : Type} (g : β → Http3Event) (ids : List β)
    (es : List Http3Event) (a : Http3Event) :
    a ∈ ids.foldl (fun acc i => insertEvent acc (g i)) es ↔
      a ∈ es ∨ ∃ i ∈ ids, a = g i := by
  induction ids generalizing es with
  | nil => simp
  | cons i t ih =>
    simp only [List.foldl_cons, ih, mem_insertEvent, List.mem_cons]
    constructor
    · rintro (⟨rfl | ha⟩ | ⟨j, hj, rfl⟩)
      · exact Or.inr ⟨i, Or.inl rfl, rfl⟩
      · exact Or.inl ha
      · exact Or.inr ⟨j, Or.inr hj, rfl⟩
    · rintro (ha | ⟨j, rfl | hj, rfl⟩)
      · exact Or.inl (Or.inr ha)
      · exact Or.inl (Or.inl rfl)
      · exact Or.inr ⟨j, hj, rfl⟩

theorem pairwise_foldl_insertEvent {β : Type} (g : β → Http3Event) (ids : List β)
    (es : List Http3Event) (hs : es.Pairwise evLt) :
    (ids.foldl (fun acc i => insertEvent acc (g i)) es).Pairwise evLt := by
  induction ids generalizing es with
  | nil => exact hs
  | cons i t ih => exact ih _ (pairwise_insertEvent hs)

/-! ## Claim theorems -/

/-- Claim C10: `Http3Connection::new` panics whenever `max_table_size`
exceeds `2^30 - 1`; at or below that bound construction succeeds and the
connection starts `Initializing` with empty request-stream maps, an empty
event set and `settings_received = false`. -/
theorem c10_new_guard (t : TransportConn) (m mb : Nat) (h : Bool) (hm : m < 2 ^ 32) :
    (2 ^ 30 - 1 < m → Http3Connection.new t m mb h = none) ∧
    (m ≤ 2 ^ 30 - 1 → ∃ c, Http3Connection.new t m mb h = some c ∧
       c.state = .Initializing ∧ c.request_streams_client = [] ∧
       c.request_streams_server = [] ∧ c.events = { events := [] } ∧
       c.settings_received = false) := by
  have hshift : (1 <<< 30 : Nat) = 2 ^ 30 := by
    norm_num [Nat.shiftLeft_eq]
  constructor
  · intro hgt
    simp only [Http3Connection.new, hshift]
    rw [if_pos (by omega)]
  · intro hle
    simp only [Http3Connection.new, hshift]
    rw [if_neg (by omega)]
    exact ⟨_, rfl, rfl, rfl, rfl, rfl, rfl⟩

theorem c10_new_guard_witness :
    Http3Connection.new (mkTrans .Client .Idle []) (2 ^ 30) 100 false = none ∧
    ∃ c, Http3Connection.new (mkTrans .Client .Idle []) 100 100 false = some c ∧
      c.state = .Initializing ∧ c.request_streams_client = [] ∧
      c.request_streams_server = [] ∧ c.events = { events := [] } ∧
      c.settings_received = false :=
  ⟨(c10_new_guard (mkTrans .Client .Idle []) (2 ^ 30) 100 false (by norm_num)).1 (by norm_num),
   (c10_new_guard (mkTrans .Client .Idle []) 100 100 false (by norm_num)).2 (by norm_num)⟩

/-- Claim C8: a new inbound unidirectional stream whose leading type
varint is none of control (0x00), push (0x01), QPACK encoder (0x02) or
QPACK decoder (0x03) elicits STOP_SENDING with the `UnknownStreamType`
code, `decode_new_stream` returns without error, and the connection state
is untouched (in particular a `Connected` connection stays `Connected`). -/
theorem c8_unknown_stream_type (c : Http3Connection) (t sid : Nat)
    (h0 : t ≠ 0) (h1 : t ≠ 1) (h2 : t ≠ 2) (h3 : t ≠ 3) :
    c.decode_new_stream t sid =
      ({ c with conn := c.conn.stream_stop_sending sid Error.UnknownStreamType.code },
       .ok ()) ∧
    (c.decode_new_stream t sid).1.state = c.state ∧
    (c.state = .Connected → (c.decode_new_stream t sid).1.state = .Connected) := by
  have hd : c.decode_new_stream t sid =
      ({ c with conn := c.conn.stream_stop_sending sid Error.UnknownStreamType.code },
       .ok ()) := by
    simp [Http3Connection.decode_new_stream, HTTP3_UNI_STREAM_TYPE_CONTROL,
      HTTP3_UNI_STREAM_TYPE_PUSH, QPACK_UNI_STREAM_TYPE_ENCODER,
      QPACK_UNI_STREAM_TYPE_DECODER, h0, h1, h2, h3]
  refine ⟨hd, by rw [hd], fun hc => by rw [hd]; exact hc⟩

theorem c8_unknown_stream_type_witness :
    ((mkConn .Client .Connected .Connected []).decode_new_stream 99 7).1.state =
      .Connected :=
  (c8_unknown_stream_type (mkConn .Client .Connected .Connected []) 99 7
    (by decide) (by decide) (by decide) (by decide)).2.2 rfl

/-- Claim C9: when the remote control stream, the inbound QPACK encoder
stream, or the inbound QPACK decoder stream is already bound, dispatching
a second inbound stream of the same type returns `WrongStreamCount` and
leaves the connection (hence the existing binding) unchanged; and a
`WrongStreamCount` error is connection-fatal (`check_result` closes with
its code). -/
theorem c9_single_binding (c : Http3Connection) (sid : Nat) :
    (∀ x, c.control_stream_remote.stream_id = some x →
       c.decode_new_stream HTTP3_UNI_STREAM_TYPE_CONTROL sid =
         (c, .error .WrongStreamCount)) ∧
    (∀ x, c.qpack_decoder.recvStream = some x →
       c.decode_new_stream QPACK_UNI_STREAM_TYPE_ENCODER sid =
         (c, .error .WrongStreamCount)) ∧
    (∀ x, c.qpack_encoder.recvStream = some x →
       c.decode_new_stream QPACK_UNI_STREAM_TYPE_DECODER sid =
         (c, .error .WrongStreamCount)) ∧
    (c.check_result (.error .WrongStreamCount)).1.state =
      .Closing Error.WrongStreamCount.code := by
  refine ⟨?_, ?_, ?_, rfl⟩
  · intro x hx
    simp [Http3Connection.decode_new_stream, HTTP3_UNI_STREAM_TYPE_CONTROL,
      ControlStreamRemote.add_remote_stream, hx]
  · intro x hx
    simp [Http3Connection.decode_new_stream, HTTP3_UNI_STREAM_TYPE_CONTROL,
      HTTP3_UNI_STREAM_TYPE_PUSH, QPACK_UNI_STREAM_TYPE_ENCODER,
      QPackDecoder.has_recv_stream, hx]
  · intro x hx
    simp [Http3Connection.decode_new_stream, HTTP3_UNI_STREAM_TYPE_CONTROL,
      HTTP3_UNI_STREAM_TYPE_PUSH, QPACK_UNI_STREAM_TYPE_ENCODER,
      QPACK_UNI_STREAM_TYPE_DECODER, QPackEncoder.has_recv_stream, hx]

theorem c9_single_binding_witness :
    cDup.decode_new_stream 0 20 = (cDup, .error .WrongStreamCount) ∧
    cDup.decode_new_stream 2 20 = (cDup, .error .WrongStreamCount) ∧
    cDup.decode_new_stream 3 20 = (cDup, .error .WrongStreamCount) :=
  ⟨(c9_single_binding cDup 20).1 3 rfl,
   (c9_single_binding cDup 20).2.1 6 rfl,
   (c9_single_binding cDup 20).2.2.1 10 rfl⟩

/-- Claim C4 (counterexample): `fetch` performs no connection-state check;
on a client in the `GoingAway` state (not `Connected`) whose transport
still creates a bidirectional stream, `fetch` succeeds instead of
returning an error. -/
theorem c4_counterexample :
    cGoingAway.state ≠ .Connected ∧
    (cGoingAway.fetch default default default default []).2 = .ok 0 := by
  exact ⟨by decide, rfl⟩

/-- Claim C4 (amended): `fetch` returns an error exactly when the
transport refuses to create a new bidirectional stream (it performs no
connection-state check); when it succeeds it returns the id of the newly
created stream, registers a client request stream under that id, and
marks the stream as having data to send. -/
theorem c4_fetch_amended (c : Http3Connection) (m s h p : String)
    (hd : List (String × String)) :
    (c.conn.nextStreamIds = [] → (c.fetch m s h p hd).2 = .error .InternalError) ∧
    (∀ id rest, c.conn.nextStreamIds = id :: rest →
       (c.fetch m s h p hd).2 = .ok id ∧
       id ∈ (c.fetch m s h p hd).1.request_streams_client ∧
       id ∈ (c.fetch m s h p hd).1.streams_have_data_to_send) := by
  constructor
  · intro hnil
    simp [Http3Connection.fetch, TransportConn.stream_create, hnil]
  · intro id rest hcons
    have h1 : (c.fetch m s h p hd).2 = .ok id := by
      simp [Http3Connection.fetch, TransportConn.stream_create, hcons]
    have h2 : (c.fetch m s h p hd).1.request_streams_client =
        insertNat c.request_streams_client id := by
      simp [Http3Connection.fetch, TransportConn.stream_create, hcons]
    have h3 : (c.fetch m s h p hd).1.streams_have_data_to_send =
        insertNat c.streams_have_data_to_send id := by
      simp [Http3Connection.fetch, TransportConn.stream_create, hcons]
    exact ⟨h1, h2 ▸ mem_insertNat_self _ _, h3 ▸ mem_insertNat_self _ _⟩

theorem c4_fetch_amended_witness :
    ((mkConn .Client .Connected .Connected []).fetch default default default default []).2 =
      .error .InternalError ∧
    ((mkConn .Client .Connected .Connected [4]).fetch default default default default []).2 =
      .ok 4 :=
  ⟨(c4_fetch_amended (mkConn .Client .Connected .Connected []) default default default
      default []).1 rfl,
   ((c4_fetch_amended (mkConn .Client .Connected .Connected [4]) default default default
      default []).2 4 [] rfl).1⟩

/-- Claim C6 (code evaluated at the failing input): on a server whose
request stream 0 hits a stream-scoped error (`WrongStream`), the read
path issues STOP_SENDING with the error's code and continues without
closing, but — as the source is written — it removes the stream from the
CLIENT request-stream map, so the stream is still present in the SERVER
map afterwards, contradicting the claim (and matching the bug the
specification's section 9 notes). -/
theorem c6_server_read_bug :
    Error.WrongStream.is_stream_error = true ∧
    (cServerBug.read_stream_server 0 false (.error .WrongStream) false false).2 = .ok true ∧
    (cServerBug.read_stream_server 0 false (.error .WrongStream) false false).1.conn.stopSendingCalls =
      [(0, Error.WrongStream.code)] ∧
    (cServerBug.read_stream_server 0 false (.error .WrongStream) false false).1.request_streams_server =
      [0] ∧
    (cServerBug.read_stream_server 0 false (.error .WrongStream) false false).1.state =
      .Connected := by
  refine ⟨rfl, ?_, ?_, ?_, ?_⟩ <;> rfl

/-- Claim C7: `read_data` and `get_headers` return `InvalidStreamId` for
an unknown stream id; on a known stream `read_data` returns the inner
`(n, fin)`, removes the stream when `fin` holds, re-marks the stream
readable when `n > 0` and not `fin`, and on an inner error closes the
connection (entering `Closing` with the error's code) and surfaces
`ConnectionError`. -/
theorem c7_read_api (c : Http3Connection) (sid : Nat)
    (inner : Except Error (Nat × Bool)) (held : Option (List (String × String))) :
    (sid ∉ c.request_streams_client →
       (c.read_data sid inner).2 = .error .InvalidStreamId ∧
       c.get_headers sid held = .error .InvalidStreamId) ∧
    (sid ∈ c.request_streams_client →
       (∀ n fin, inner = .ok (n, fin) →
          (c.read_data sid inner).2 = .ok (n, fin) ∧
          (fin = true → sid ∉ (c.read_data sid inner).1.request_streams_client) ∧
          (0 < n → fin = false → sid ∈ (c.read_data sid inner).1.streams_are_readable)) ∧
       (∀ e, inner = .error e →
          (c.read_data sid inner).1.state = .Closing e.code ∧
          (c.read_data sid inner).2 = .error .ConnectionError)) := by
  constructor
  · intro hnot
    constructor
    · simp [Http3Connection.read_data, hnot]
    · simp [Http3Connection.get_headers, hnot]
  · intro hmem
    constructor
    · rintro n fin rfl
      refine ⟨?_, ?_, ?_⟩
      · simp [Http3Connection.read_data, hmem]
      · rintro rfl
        simp only [Http3Connection.read_data, if_pos hmem]
        simpa using not_mem_removeNat c.request_streams_client sid
      · rintro hn rfl
        simp only [Http3Connection.read_data, if_pos hmem]
        simpa [hn] using mem_insertNat_self c.streams_are_readable sid
    · rintro e rfl
      constructor
      · simp [Http3Connection.read_data, hmem, Http3Connection.close]
      · simp [Http3Connection.read_data, hmem]

theorem c7_read_api_witness :
    (cReq.read_data 5 (.ok (0, false))).2 = .error .InvalidStreamId ∧
    (cReq.read_data 0 (.ok (3, false))).2 = .ok (3, false) ∧
    0 ∈ (cReq.read_data 0 (.ok (3, false))).1.streams_are_readable ∧
    0 ∉ (cReq.read_data 0 (.ok (3, true))).1.request_streams_client ∧
    (cReq.read_data 0 (.error .WrongStream)).2 = .error .ConnectionError :=
  ⟨((c7_read_api cReq 5 (.ok (0, false)) none).1 (by decide)).1,
   (((c7_read_api cReq 0 (.ok (3, false)) none).2 (by decide)).1 3 false rfl).1,
   (((c7_read_api cReq 0 (.ok (3, false)) none).2 (by decide)).1 3 false rfl).2.2
     (by decide) rfl,
   (((c7_read_api cReq 0 (.ok (3, true)) none).2 (by decide)).1 3 true rfl).2.1 rfl,
   (((c7_read_api cReq 0 (.error .WrongStream) none).2 (by decide)).2 .WrongStream rfl).2⟩

theorem insertOne_events (s : Http3Events) (e : Http3Event)
    (hne : ∀ code, e ≠ .connectionClosed code) :
    (insertOne s e).events = insertEvent s.events e := by
  cases e with
  | headerReady sid => rfl
  | dataReadable sid => rfl
  | requestClosed sid err => rfl
  | newPushStream sid => rfl
  | connectionClosed code => exact absurd rfl (hne code)

theorem foldl_insertOne_events (l : List Http3Event) (s : Http3Events)
    (hnc : ∀ code, Http3Event.connectionClosed code ∉ l) :
    (l.foldl insertOne s).events = l.foldl (fun acc e => insertEvent acc e) s.events := by
  induction l generalizing s with
  | nil => rfl
  | cons e t ih =>
    have he : ∀ code, e ≠ .connectionClosed code := by
      intro code h
      exact hnc code (by simp [h])
    have ht : ∀ code, Http3Event.connectionClosed code ∉ t := by
      intro code h
      exact hnc code (by simp [h])
    simp only [List.foldl_cons, ih _ ht, insertOne_events _ _ he]

/-- Claim C5 (counterexample): the event queue is a `BTreeSet`, so
`events()` returns pending events in the set's derived order, not in
their insertion order: inserting `DataReadable{0}` and then
`HeaderReady{0}` yields `[HeaderReady{0}, DataReadable{0}]`. -/
theorem c5_counterexample :
    (insertAll [.dataReadable 0, .headerReady 0]).drainEvents.1 =
      [Http3Event.headerReady 0, .dataReadable 0] ∧
    [Http3Event.headerReady 0, .dataReadable 0] ≠
      [Http3Event.dataReadable 0, .headerReady 0] := by
  exact ⟨by decide, by decide⟩

/-- Claim C5 (amended): for every sequence of event insertions (the
clearing `connection_closed` enqueue aside), `events()` returns the
pending events deduplicated — multiple readable signals on the same
stream coalesce into a single `DataReadable` — sorted by the derived
event ordering (variant, then fields) rather than insertion order, and
drains the queue so that an immediately following call returns the empty
collection. -/
theorem c5_events_queue (l : List Http3Event)
    (hnc : ∀ code, Http3Event.connectionClosed code ∉ l) :
    (insertAll l).drainEvents.1.Pairwise evLt ∧
    (insertAll l).drainEvents.1.Nodup ∧
    (∀ e, e ∈ (insertAll l).drainEvents.1 ↔ e ∈ l) ∧
    (insertAll l).drainEvents.2.drainEvents.1 = [] := by
  have hev : (insertAll l).events = l.foldl (fun acc e => insertEvent acc e) [] :=
    foldl_insertOne_events l _ hnc
  have hpw : ((insertAll l).events).Pairwise evLt := by
    rw [hev]
    exact pairwise_foldl_insertEvent (fun e => e) l [] (by simp)
  refine ⟨hpw, hpw.imp evLt_ne, ?_, rfl⟩
  intro e
  show e ∈ (insertAll l).events ↔ e ∈ l
  rw [hev, mem_foldl_insertEvent (fun e => e) l [] e]
  simp

theorem c5_events_queue_witness :
    (insertAll [Http3Event.dataReadable 1, .dataReadable 1]).drainEvents.1.Nodup ∧
    (Http3Event.dataReadable 1 ∈
      (insertAll [Http3Event.dataReadable 1, .dataReadable 1]).drainEvents.1 ↔
      Http3Event.dataReadable 1 ∈ [Http3Event.dataReadable 1, .dataReadable 1]) := by
  have hnc : ∀ code, Http3Event.connectionClosed code ∉
      [Http3Event.dataReadable 1, Http3Event.dataReadable 1] := by
    intro code
    simp
  exact ⟨(c5_events_queue _ hnc).2.1, (c5_events_queue _ hnc).2.2.1 _⟩

/-- Claim C3: a client in `Connected` or `GoingAway` handling GOAWAY with
the given cutoff emits `RequestClosed(NetReset)` for every active request
stream at or above the cutoff and removes those streams from the map;
the surviving pending events are exactly those passing the GOAWAY filter
(`HeaderReady`/`DataReadable`/`NewPushStream` only below the cutoff,
`RequestClosed` and `ConnectionClosed` always); the state becomes
`GoingAway`; and the transport is untouched (the connection is not
closed). Request streams below the cutoff are kept. -/
theorem c3_goaway (c : Http3Connection) (cutoff : Nat)
    (hrole : c.conn.role = .Client)
    (hstate : c.state = .Connected ∨ c.state = .GoingAway) :
    (c.handle_goaway cutoff).2 = .ok () ∧
    (c.handle_goaway cutoff).1.request_streams_client =
      c.request_streams_client.filter (fun id => decide (id < cutoff)) ∧
    (∀ id, id ∈ c.request_streams_client → cutoff ≤ id →
       Http3Event.requestClosed id .NetReset ∈ (c.handle_goaway cutoff).1.events.events) ∧
    (∀ e, e ∈ (c.handle_goaway cutoff).1.events.events ↔
       (keepOnGoaway cutoff e = true ∧
        (e ∈ c.events.events ∨
         ∃ id, id ∈ c.request_streams_client ∧ cutoff ≤ id ∧
           e = .requestClosed id .NetReset))) ∧
    (c.handle_goaway cutoff).1.state = .GoingAway ∧
    (c.handle_goaway cutoff).1.conn = c.conn := by
  have hns : ¬ (c.conn.role = .Server) := by
    rw [hrole]
    decide
  have hmemiff : ∀ e, e ∈ (c.handle_goaway cutoff).1.events.events ↔
      (keepOnGoaway cutoff e = true ∧
       (e ∈ c.events.events ∨
        ∃ id, id ∈ c.request_streams_client ∧ cutoff ≤ id ∧
          e = .requestClosed id .NetReset)) := by
    intro e
    simp only [Http3Connection.handle_goaway, if_neg hns]
    rw [List.mem_filter]
    rw [mem_foldl_insertEvent (fun id => Http3Event.requestClosed id .NetReset)]
    simp only [List.mem_filter, decide_eq_true_eq]
    constructor
    · rintro ⟨hin, hkeep⟩
      refine ⟨hkeep, ?_⟩
      rcases hin with hin | ⟨i, ⟨hi1, hi2⟩, rfl⟩
      · exact Or.inl hin
      · exact Or.inr ⟨i, hi1, hi2, rfl⟩
    · rintro ⟨hkeep, hin | ⟨i, hi1, hi2, rfl⟩⟩
      · exact ⟨Or.inl hin, hkeep⟩
      · exact ⟨Or.inr ⟨i, ⟨hi1, hi2⟩, rfl⟩, hkeep⟩
  refine ⟨?_, ?_, ?_, hmemiff, ?_, ?_⟩
  · simp [Http3Connection.handle_goaway, if_neg hns]
  · simp [Http3Connection.handle_goaway, if_neg hns]
  · intro id hid hcut
    exact (hmemiff _).mpr ⟨rfl, Or.inr ⟨id, hid, hcut, rfl⟩⟩
  · simp only [Http3Connection.handle_goaway, if_neg hns]
    rcases hstate with hs | hs
    · simp [hs]
    · rw [hs]
      have : ¬ (Http3State.GoingAway = Http3State.Connected) := by decide
      simp [this, hs]
  · simp [Http3Connection.handle_goaway, if_neg hns]

theorem c3_goaway_witness :
    (cGo.handle_goaway 8).1.state = .GoingAway ∧
    Http3Event.requestClosed 8 .NetReset ∈ (cGo.handle_goaway 8).1.events.events ∧
    (cGo.handle_goaway 8).1.request_streams_client = [0, 4] ∧
    (cGo.handle_goaway 8).1.conn = cGo.conn := by
  refine ⟨(c3_goaway cGo 8 rfl (Or.inl rfl)).2.2.2.2.1,
    (c3_goaway cGo 8 rfl (Or.inl rfl)).2.2.1 8 (by decide) (by decide), ?_,
    (c3_goaway cGo 8 rfl (Or.inl rfl)).2.2.2.2.2⟩
  rw [(c3_goaway cGo 8 rfl (Or.inl rfl)).2.1]
  decide

theorem handle_settings_facts (c : Http3Connection) (s : List (HSettingType × Nat)) :
    (c.handle_settings s).1.settings_received = c.settings_received ∧
    (c.handle_settings s).1.control_stream_remote = c.control_stream_remote ∧
    (c.handle_settings s).2 ≠ .error .MissingSettings ∧
    (c.handle_settings s).2 ≠ .error .UnexpectedFrame := by
  induction s generalizing c with
  | nil => simp [Http3Connection.handle_settings]
  | cons hv t ih =>
    obtain ⟨ht, hvv⟩ := hv
    cases ht with
    | maxHeaderListSize => simpa [Http3Connection.handle_settings] using ih _
    | numPlaceholders =>
      by_cases hr : c.conn.role = .Server
      · simp [Http3Connection.handle_settings, hr]
      · simpa [Http3Connection.handle_settings, hr] using ih _
    | maxTableSize => simpa [Http3Connection.handle_settings] using ih _
    | blockedStreams => simpa [Http3Connection.handle_settings] using ih _
    | unknown id => simpa [Http3Connection.handle_settings] using ih _

theorem handle_goaway_facts (c : Http3Connection) (sid : Nat) :
    (c.handle_goaway sid).1.settings_received = c.settings_received ∧
    (c.handle_goaway sid).1.control_stream_remote = c.control_stream_remote ∧
    (c.handle_goaway sid).2 ≠ .error .MissingSettings := by
  by_cases hr : c.conn.role = .Server <;>
    simp [Http3Connection.handle_goaway, hr]

theorem handle_max_push_id_facts (c : Http3Connection) (pid : Nat) :
    (c.handle_max_push_id pid).1.settings_received = c.settings_received ∧
    (c.handle_max_push_id pid).1.control_stream_remote = c.control_stream_remote ∧
    (c.handle_max_push_id pid).2 ≠ .error .MissingSettings := by
  by_cases hr : c.conn.role = .Client <;>
    simp [Http3Connection.handle_max_push_id, hr]

theorem handle_control_frame_received (c : Http3Connection)
    (h : c.settings_received = true) :
    (c.handle_control_frame).1.settings_received = true ∧
    (c.handle_control_frame).2 ≠ .error .MissingSettings := by
  by_cases hfin : c.control_stream_remote.fin
  · simp [Http3Connection.handle_control_frame, hfin, h]
  · cases hf : c.control_stream_remote.frame_reader with
    | none => simp [Http3Connection.handle_control_frame, hfin, hf, h]
    | some f =>
      cases f with
      | settings s => simp [Http3Connection.handle_control_frame, hfin, hf, h]
      | data p => simp [Http3Connection.handle_control_frame, hfin, hf, h]
      | headers p => simp [Http3Connection.handle_control_frame, hfin, hf, h]
      | priority p => simp [Http3Connection.handle_control_frame, hfin, hf, h]
      | cancelPush id => simp [Http3Connection.handle_control_frame, hfin, hf, h]
      | pushPromise id b => simp [Http3Connection.handle_control_frame, hfin, hf, h]
      | duplicatePush id => simp [Http3Connection.handle_control_frame, hfin, hf, h]
      | goaway sid =>
        simp only [Http3Connection.handle_control_frame, hfin, hf, h, if_true,
          Bool.false_eq_true, if_false]
        constructor
        · rw [(handle_goaway_facts _ sid).1]
        · exact (handle_goaway_facts _ sid).2.2
      | maxPushId pid =>
        simp only [Http3Connection.handle_control_frame, hfin, hf, h, if_true,
          Bool.false_eq_true, if_false]
        constructor
        · rw [(handle_max_push_id_facts _ pid).1]
        · exact (handle_max_push_id_facts _ pid).2.2

theorem handle_control_frame_fin (c : Http3Connection) :
    (c.handle_control_frame).1.control_stream_remote.fin =
      c.control_stream_remote.fin := by
  by_cases hfin : c.control_stream_remote.fin
  · simp [Http3Connection.handle_control_frame, hfin]
  · cases hf : c.control_stream_remote.frame_reader with
    | none => simp [Http3Connection.handle_control_frame, hfin, hf]
    | some f =>
      cases f with
      | settings s =>
        by_cases hr : c.settings_received
        · simp [Http3Connection.handle_control_frame, hfin, hf, hr]
        · simp only [Http3Connection.handle_control_frame, hfin, hf, hr,
            Bool.false_eq_true, if_false]
          rw [(handle_settings_facts _ s).2.1]
      | data p =>
        by_cases hr : c.settings_received <;>
          simp [Http3Connection.handle_control_frame, hfin, hf, hr]
      | headers p =>
        by_cases hr : c.settings_received <;>
          simp [Http3Connection.handle_control_frame, hfin, hf, hr]
      | priority p =>
        by_cases hr : c.settings_received <;>
          simp [Http3Connection.handle_control_frame, hfin, hf, hr]
      | cancelPush id =>
        by_cases hr : c.settings_received <;>
          simp [Http3Connection.handle_control_frame, hfin, hf, hr]
      | pushPromise id b =>
        by_cases hr : c.settings_received <;>
          simp [Http3Connection.handle_control_frame, hfin, hf, hr]
      | duplicatePush id =>
        by_cases hr : c.settings_received <;>
          simp [Http3Connection.handle_control_frame, hfin, hf, hr]
      | goaway sid =>
        by_cases hr : c.settings_received
        · simp only [Http3Connection.handle_control_frame, hfin, hf, hr, if_true,
            Bool.false_eq_true, if_false]
          rw [(handle_goaway_facts _ sid).2.1]
        · simp [Http3Connection.handle_control_frame, hfin, hf, hr]
      | maxPushId pid =>
        by_cases hr : c.settings_received
        · simp only [Http3Connection.handle_control_frame, hfin, hf, hr, if_true,
            Bool.false_eq_true, if_false]
          rw [(handle_max_push_id_facts _ pid).2.1]
        · simp [Http3Connection.handle_control_frame, hfin, hf, hr]

theorem stepFrame_received (c : Http3Connection) (f : HFrame)
    (h : c.settings_received = true) :
    (stepFrame c f).1.settings_received = true ∧
    (stepFrame c f).2 ≠ .error .MissingSettings :=
  handle_control_frame_received _ h

theorem stepFrame_fin (c : Http3Connection) (f : HFrame) :
    (stepFrame c f).1.control_stream_remote.fin = c.control_stream_remote.fin :=
  handle_control_frame_fin _

theorem runFrames_received (c : Http3Connection) (l : List HFrame)
    (h : c.settings_received = true) :
    (runFrames c l).1.settings_received = true ∧
    (runFrames c l).2 ≠ .error .MissingSettings := by
  induction l generalizing c with
  | nil => simpa [runFrames] using h
  | cons f t ih =>
    have hs := stepFrame_received c f h
    rcases hstep : stepFrame c f with ⟨c1, r⟩
    rw [hstep] at hs
    cases r with
    | ok u => simpa [runFrames, hstep] using ih c1 hs.1
    | error e => simpa [runFrames, hstep] using hs

theorem runFrames_fin (c : Http3Connection) (l : List HFrame) :
    (runFrames c l).1.control_stream_remote.fin = c.control_stream_remote.fin := by
  induction l generalizing c with
  | nil => simp [runFrames]
  | cons f t ih =>
    have hs := stepFrame_fin c f
    rcases hstep : stepFrame c f with ⟨c1, r⟩
    rw [hstep] at hs
    cases r with
    | ok u =>
      rw [show runFrames c (f :: t) = runFrames c1 t by simp [runFrames, hstep]]
      rw [ih c1]
      exact hs
    | error e => simpa [runFrames, hstep] using hs

theorem runFrames_append (c : Http3Connection) (l1 l2 : List HFrame)
    (h : (runFrames c l1).2 = .ok ()) :
    runFrames c (l1 ++ l2) = runFrames (runFrames c l1).1 l2 := by
  induction l1 generalizing c with
  | nil => simp [runFrames]
  | cons f t ih =>
    rcases hstep : stepFrame c f with ⟨c1, r⟩
    cases r with
    | ok u =>
      rw [show runFrames c (f :: t) = runFrames c1 t by simp [runFrames, hstep]] at h ⊢
      rw [List.cons_append,
        show runFrames c (f :: (t ++ l2)) = runFrames c1 (t ++ l2) by
          simp [runFrames, hstep]]
      exact ih c1 h
    | error e =>
      exfalso
      rw [show runFrames c (f :: t) = (c1, .error e) by simp [runFrames, hstep]] at h
      exact Except.noConfusion h

theorem stepFrame_first_nonsettings (c : Http3Connection) (f : HFrame)
    (hr : c.settings_received = false)
    (hfin : c.control_stream_remote.fin = false)
    (hns : f.isSettings = false) :
    (stepFrame c f).2 = .error .MissingSettings := by
  cases f <;>
    simp_all [stepFrame, Http3Connection.handle_control_frame, HFrame.isSettings]

theorem stepFrame_first_settings (c : Http3Connection) (s : List (HSettingType × Nat))
    (hr : c.settings_received = false)
    (hfin : c.control_stream_remote.fin = false) :
    stepFrame c (.settings s) =
      Http3Connection.handle_settings
        { c with
            control_stream_remote :=
              { c.control_stream_remote with frame_reader := none }
            settings_received := true } s := by
  simp [stepFrame, Http3Connection.handle_control_frame, hfin, hr]

theorem stepFrame_second_settings (c : Http3Connection) (s : List (HSettingType × Nat))
    (hr : c.settings_received = true)
    (hfin : c.control_stream_remote.fin = false) :
    (stepFrame c (.settings s)).2 = .error .UnexpectedFrame := by
  simp [stepFrame, Http3Connection.handle_control_frame, hfin, hr]

/-- Claim C1: on the remote control stream, starting from a connection
that has not yet received SETTINGS (and no FIN), for every delivered
frame sequence: a first frame that is not SETTINGS fails with
`MissingSettings`; a sequence opening with SETTINGS never produces
`MissingSettings` and the first SETTINGS step records acceptance (the
flag is set and the step is not rejected as `UnexpectedFrame`); and any
SETTINGS frame handled after a successfully processed prefix that opened
with SETTINGS fails with `UnexpectedFrame`. The connection's role is
arbitrary, covering client and server. -/
theorem c1_settings_sequencing (c : Http3Connection)
    (hr : c.settings_received = false)
    (hfin : c.control_stream_remote.fin = false) :
    (∀ f rest, f.isSettings = false →
       (runFrames c (f :: rest)).2 = .error .MissingSettings) ∧
    (∀ s rest,
       (runFrames c (HFrame.settings s :: rest)).2 ≠ .error .MissingSettings ∧
       (stepFrame c (.settings s)).1.settings_received = true ∧
       (stepFrame c (.settings s)).2 ≠ .error .UnexpectedFrame) ∧
    (∀ s0 mid s rest,
       (runFrames c (HFrame.settings s0 :: mid)).2 = .ok () →
       (runFrames c ((HFrame.settings s0 :: mid) ++ (HFrame.settings s :: rest))).2 =
         .error .UnexpectedFrame) := by
  have hfirst : ∀ s, stepFrame c (.settings s) =
      Http3Connection.handle_settings
        { c with
            control_stream_remote :=
              { c.control_stream_remote with frame_reader := none }
            settings_received := true } s :=
    fun s => stepFrame_first_settings c s hr hfin
  refine ⟨?_, ?_, ?_⟩
  · intro f rest hns
    have h1 := stepFrame_first_nonsettings c f hr hfin hns
    rcases hstep : stepFrame c f with ⟨c1, r⟩
    rw [hstep] at h1
    simp only at h1
    subst h1
    simp [runFrames, hstep]
  · intro s rest
    have hrec : (stepFrame c (.settings s)).1.settings_received = true := by
      rw [hfirst s, (handle_settings_facts _ s).1]
    refine ⟨?_, hrec, ?_⟩
    · rcases hstep : stepFrame c (.settings s) with ⟨c1, r⟩
      have hne : r ≠ .error .MissingSettings := by
        have := (congrArg Prod.snd hstep).symm
        rw [hfirst s] at this
        rw [show r = (Http3Connection.handle_settings
          { c with
              control_stream_remote :=
                { c.control_stream_remote with frame_reader := none }
              settings_received := true } s).2 from this]
        exact (handle_settings_facts _ s).2.2.1
      have hc1 : c1.settings_received = true := by
        have := congrArg (fun p => p.1.settings_received) hstep
        simp only at this
        rw [← this, hrec]
      cases r with
      | ok u =>
        rw [show runFrames c (HFrame.settings s :: rest) = runFrames c1 rest by
          simp [runFrames, hstep]]
        exact (runFrames_received c1 rest hc1).2
      | error e =>
        rw [show runFrames c (HFrame.settings s :: rest) = (c1, .error e) by
          simp [runFrames, hstep]]
        simpa using hne
    · rw [hfirst s]
      exact (handle_settings_facts _ s).2.2.2
  · intro s0 mid s rest hok
    rw [runFrames_append c _ _ hok]
    have hc1rec : (runFrames c (HFrame.settings s0 :: mid)).1.settings_received = true := by
      rcases hstep : stepFrame c (.settings s0) with ⟨ca, ra⟩
      have hca : ca.settings_received = true := by
        have := congrArg (fun p => p.1.settings_received) hstep
        simp only at this
        rw [← this, hfirst s0, (handle_settings_facts _ s0).1]
      cases ra with
      | ok u =>
        rw [show runFrames c (HFrame.settings s0 :: mid) = runFrames ca mid by
          simp [runFrames, hstep]]
        exact (runFrames_received ca mid hca).1
      | error e =>
        rw [show runFrames c (HFrame.settings s0 :: mid) = (ca, .error e) by
          simp [runFrames, hstep]] at hok
        exact absurd hok (by simp)
    have hc1fin : (runFrames c (HFrame.settings s0 :: mid)).1.control_stream_remote.fin =
        false := by
      rw [runFrames_fin, hfin]
    set X := (runFrames c (HFrame.settings s0 :: mid)).1 with hX
    have h2 := stepFrame_second_settings X s hc1rec hc1fin
    rcases hstep : stepFrame X (.settings s) with ⟨cb, rb⟩
    rw [hstep] at h2
    simp only at h2
    subst h2
    simp [runFrames, hstep]

theorem c1_settings_sequencing_witness :
    (runFrames cFresh [HFrame.priority []]).2 = .error .MissingSettings ∧
    (stepFrame cFresh (.settings [])).1.settings_received = true ∧
    (runFrames cFresh [HFrame.settings [], .settings []]).2 = .error .UnexpectedFrame := by
  refine ⟨(c1_settings_sequencing cFresh rfl rfl).1 _ [] rfl,
    ((c1_settings_sequencing cFresh rfl rfl).2.1 [] []).2.1, ?_⟩
  have h3 := (c1_settings_sequencing cFresh rfl rfl).2.2 [] [] [] []
    (by rfl)
  simpa using h3

/-- Claim C2: FIN observed on the remote control stream (with or without
a pending frame; the state is arbitrary) makes `handle_control_frame`
return `ClosedCriticalStream` without touching the state; `check_result`
on that error closes the connection, entering `Closing` with the
`ClosedCriticalStream` code; and once the transport reports closed,
`check_state_change` moves any connection in that `Closing` state to
`Closed` with the same code. -/
theorem c2_control_fin_fatal (c c2 : Http3Connection)
    (hfin : c.control_stream_remote.fin = true)
    (h2s : c2.state = .Closing Error.ClosedCriticalStream.code)
    (h2t : c2.conn.state = .Closed) :
    c.handle_control_frame = (c, .error .ClosedCriticalStream) ∧
    (c.check_result (.error .ClosedCriticalStream)).1.state =
      .Closing Error.ClosedCriticalStream.code ∧
    c2.check_state_change.state = .Closed Error.ClosedCriticalStream.code := by
  refine ⟨?_, rfl, ?_⟩
  · simp [Http3Connection.handle_control_frame, hfin]
  · simp [Http3Connection.check_state_change, h2s, h2t]

theorem c2_control_fin_fatal_witness :
    cFin.handle_control_frame = (cFin, .error .ClosedCriticalStream) ∧
    cClosingDone.check_state_change.state = .Closed Error.ClosedCriticalStream.code :=
  ⟨(c2_control_fin_fatal cFin cClosingDone rfl rfl rfl).1,
   (c2_control_fin_fatal cFin cClosingDone rfl rfl rfl).2.2⟩

end NeqoHttp3
